import Mathlib

/-!
# Secrets-App: a model of `app.js`

The application is an Express server with two mongoose collections (`User`, `Secret`),
express-session with its default in-process store, and passport with the local strategy of
passport-local-mongoose and a Google OAuth strategy.

The model is a request/response step function over an explicit application state:
the two collections and the session store.  Everything a request cannot determine by itself
(the cookie it carries, the fresh session id, the random salt, which awaited store operation
rejects) is part of the request environment.
-/

namespace SecretsApp

/-! ## Data model -/

/-- Session identifier carried by the `connect.sid` cookie. -/
abbrev Token := String

/-- A document of the `User` collection: the two paths of `userSchema` (`email` required and
unique, `googleId` unique) and the `salt` and `hash` paths added by the passport-local-mongoose
plugin.  An absent path is `none`. -/
structure User where
  email : String
  googleId : Option String
  salt : Option String
  hash : Option String
  deriving DecidableEq

/-- A document of the `Secret` collection (`secretSchema`): one required string path. -/
structure Secret where
  secretText : String
  deriving DecidableEq

/-- A stored session: `req.session.passport.user`, the value written by `serializeUser`
(passport-local-mongoose serialises a user to its username field, here the email).
`none` stands for a session without `passport` or with `passport` lacking `user`. -/
structure Session where
  passportUser : Option String
  deriving DecidableEq

/-- The application state: both collections and the session store. -/
structure AppState where
  users : List User
  secrets : List Secret
  sessions : List (Token × Session)
  deriving DecidableEq

/-- The state of a freshly started server on an empty database. -/
def AppState.empty : AppState := ⟨[], [], []⟩

/-- What a request handler sends back.
`render view locals`: `res.render(view, locals)`, the only local ever passed being `secrets`;
`redirect`: `res.redirect(location)`;
`json`: `res.status(status).json` of an object with the single field `message`;
`unhandled`: an error given to `next`, answered by the default Express error handler. -/
inductive Response where
  | render (view : String) (secrets : Option (List Secret))
  | redirect (location : String)
  | json (status : Nat) (message : String)
  | unhandled (status : Nat)
  deriving DecidableEq

/-- Reasons for which an awaited operation rejects. -/
inductive StoreError where
  | unavailable
  | validation
  | duplicateKey
  | userExists
  | missingUsername
  | missingPassword
  | typeError
  deriving DecidableEq

/-- Which awaited store operations of the current request reject for reasons outside the
application (connection lost, time-out): one flag per store call of a route, the calls of the
three `try`/`catch` handlers, the `User.findOrCreate` of the Google verify callback and the
user lookup of the local strategy (`authenticate`).  The read by which `passport.session()`
deserialises the session user is taken to answer: whether a request is authenticated is the
outcome of that read.  The session store is the default in-process store of express-session,
which has no failure mode. -/
structure Faults where
  findOne : Bool
  register : Bool
  save : Bool
  find : Bool
  create : Bool
  findOrCreate : Bool
  authenticate : Bool
  deriving DecidableEq

/-- No store operation rejects. -/
def noFaults : Faults := ⟨false, false, false, false, false, false, false⟩

/-- The environment of one request: the session cookie it carries, the identifier a
regenerated session would receive, the salt `User.register` would draw, and the store faults. -/
structure Env where
  cookie : Option Token
  newSid : Token
  salt : String
  faults : Faults
  deriving DecidableEq

/-- The profile handed to the Google verify callback: `profile.id` and the `value`s of
`profile.emails`. -/
structure Profile where
  id : String
  emails : List String
  deriving DecidableEq

/-- Outcome of the OAuth handshake at the callback URL.
`denied`: the strategy reports an authentication failure (the provider answers
`access_denied`), which `passport.authenticate` answers with `failureRedirect`;
`handshakeError`: the strategy reports an error (another `error` parameter, a failed exchange
of the code for a token, a failed fetch of the profile), which passport hands to `next`;
`granted`: the strategy obtains a profile and calls the verify callback. -/
inductive OAuthResult where
  | denied
  | handshakeError
  | granted (profile : Profile)
  deriving DecidableEq

/-- The routes of `app.js` with the body fields they read (`none`: field absent). -/
inductive Route where
  | getRoot
  | getLogin
  | getRegister
  | postRegister (email password : Option String)
  | postLogin (email password : Option String)
  | getSecrets
  | getSubmit
  | postSubmit (secret : Option String)
  | getLogout
  | getAuthGoogle
  | getAuthGoogleSecrets (result : OAuthResult)
  deriving DecidableEq

/-- A request: a route and its environment. -/
structure Request where
  env : Env
  route : Route
  deriving DecidableEq

/-! ## JavaScript values read by the registration handler -/

/-- The JavaScript values that `req.session.passport.user.profile.id` can go through. -/
inductive JSVal where
  | undefined
  | str (s : String)
  | num (n : Nat)
  deriving DecidableEq

/-- Property read `v.name`: throws a TypeError on `undefined`; on a primitive string only
`length` is a data property, any other name such as `profile` reads `undefined`; likewise on a
number. -/
def jsGet (v : JSVal) (name : String) : Except StoreError JSVal :=
  match v with
  | .undefined => .error .typeError
  | .str s => if name = "length" then .ok (.num s.length) else .ok .undefined
  | .num _ => .ok .undefined

/-- Value assigned to a `String` path of a document: `undefined` leaves the path unset. -/
def jsToPath (v : JSVal) : Option String :=
  match v with
  | .undefined => none
  | .str s => some s
  | .num n => some (toString n)

/-! ## Store operations -/

/-- `User.findOne` by email (also `findByUsername` of passport-local-mongoose, whose username
field is `email`). -/
def findByEmail (users : List User) (email : String) : Option User :=
  users.find? (fun u => decide (u.email = email))

/-- The two unique indexes of `userSchema`.  Neither index is sparse, so a document lacking
`googleId` is indexed under null and two such documents collide as well. -/
def violatesUnique (users : List User) (u : User) : Bool :=
  users.any (fun v => decide (v.email = u.email) || decide (v.googleId = u.googleId))

/-- Insertion of a new `User` document: rejected on a fault, when the required `email` is
empty, or when a unique index is violated. -/
def insertUser (fault : Bool) (users : List User) (u : User) :
    Except StoreError (List User) :=
  if fault then .error .unavailable
  else if u.email = "" then .error .validation
  else if violatesUnique users u then .error .duplicateKey
  else .ok (users ++ [u])

/-- The call `newUser.save()` on an already stored document (found by its email): rejected on a
fault or when another document holds the same `googleId`. -/
def saveUser (fault : Bool) (users : List User) (u : User) :
    Except StoreError (List User) :=
  if fault then .error .unavailable
  else if users.any (fun v => !decide (v.email = u.email) && decide (v.googleId = u.googleId))
  then .error .duplicateKey
  else .ok (users.map (fun v => if v.email = u.email then u else v))

/-- `User.register` of passport-local-mongoose with a plain object and a password:
the username and the password must be non-empty, the username must not be taken, the
credential is the salt with the key derived from password and salt, and the document is saved. -/
def userRegister (kdf : String → String → String) (fault : Bool) (salt : String)
    (users : List User) (email password : Option String) :
    Except StoreError (List User × User) :=
  if fault then .error .unavailable
  else match email with
    | none => .error .missingUsername
    | some e =>
      if e = "" then .error .missingUsername
      else match findByEmail users e with
        | some _ => .error .userExists
        | none =>
          match password with
          | none => .error .missingPassword
          | some p =>
            if p = "" then .error .missingPassword
            else
              let u : User := ⟨e, none, some salt, some (kdf p salt)⟩
              match insertUser false users u with
              | .error err => .error err
              | .ok users1 => .ok (users1, u)

/-- `User.findOrCreate` of mongoose-findorcreate with the conditions `email` and `googleId`:
the document matching both, or else a new document made of the conditions. -/
def findOrCreate (fault : Bool) (users : List User) (email googleId : String) :
    Except StoreError (List User × User) :=
  if fault then .error .unavailable
  else match users.find? (fun u => decide (u.email = email) && decide (u.googleId = some googleId)) with
    | some u => .ok (users, u)
    | none =>
      let u : User := ⟨email, some googleId, none, none⟩
      match insertUser false users u with
      | .error err => .error err
      | .ok users1 => .ok (users1, u)

/-- `Secret.create` with the submitted text: `secretText` is required, so an absent or empty
text fails validation. -/
def createSecret (fault : Bool) (secrets : List Secret) (text : Option String) :
    Except StoreError (List Secret) :=
  if fault then .error .unavailable
  else match text with
    | none => .error .validation
    | some t => if t = "" then .error .validation else .ok (secrets ++ [⟨t⟩])

/-! ## Sessions -/

/-- Removal of the session a cookie names (`store.destroy`). -/
def eraseSession (sessions : List (Token × Session)) (cookie : Option Token) :
    List (Token × Session) :=
  match cookie with
  | none => sessions
  | some k => sessions.filter (fun p => !decide (p.1 = k))

/-- The statement `delete req.session.passport.user` followed by the save of the modified
session at the end of the request. -/
def clearSessionUser (sessions : List (Token × Session)) (k : Token) :
    List (Token × Session) :=
  sessions.map (fun p => if p.1 = k then (p.1, (⟨none⟩ : Session)) else p)

/-- The middleware `passport.session()`: a session whose `passport.user` deserialises to a
user sets `req.user`; when no user is found the key is deleted from the session. -/
def passportSession (st : AppState) (cookie : Option Token) : AppState × Option User :=
  match cookie with
  | none => (st, none)
  | some k =>
    match st.sessions.lookup k with
    | none => (st, none)
    | some s =>
      match s.passportUser with
      | none => (st, none)
      | some su =>
        if su = "" then (st, none)
        else match findByEmail st.users su with
          | some u => (st, some u)
          | none =>
            ({ st with sessions := clearSessionUser st.sessions k }, none)

/-- The value of `req.session.passport.user` seen by a handler. -/
def sessionUser (st : AppState) (cookie : Option Token) : Option String :=
  match cookie with
  | none => none
  | some k =>
    match st.sessions.lookup k with
    | none => none
    | some s => s.passportUser

/-- `req.logIn` of passport: the session is regenerated under a new identifier and the
serialised user (the email) is stored in it. -/
def logIn (st : AppState) (cookie : Option Token) (newSid : Token) (u : User) : AppState :=
  { st with sessions :=
      (newSid, (⟨some u.email⟩ : Session)) ::
        eraseSession (eraseSession st.sessions cookie) (some newSid) }

/-- The verify function of the local strategy (`User.authenticate()`): the user with this
email whose stored hash is the key derived from the password and the stored salt. -/
def verifyLocal (kdf : String → String → String) (users : List User)
    (email password : String) : Option User :=
  match findByEmail users email with
  | none => none
  | some u =>
    match u.salt, u.hash with
    | some s, some h => if kdf password s = h then some u else none
    | _, _ => none

/-- The local strategy on the body of `POST /login`: a missing or empty field fails without
any lookup; otherwise the verify function looks the user up, which rejects on a fault, and
decides. -/
def localStrategy (kdf : String → String → String) (fault : Bool) (users : List User)
    (email password : Option String) : Except StoreError (Option User) :=
  match email, password with
  | some e, some p =>
    if e = "" ∨ p = "" then .ok none
    else if fault then .error .unavailable
    else .ok (verifyLocal kdf users e p)
  | _, _ => .ok none

/-- The verify callback of the Google strategy: `User.findOrCreate` on
`profile.emails[0].value` and `profile.id`; a profile without email throws. -/
def googleVerify (fault : Bool) (users : List User) (profile : Profile) :
    Except StoreError (List User × User) :=
  match profile.emails with
  | [] => .error .typeError
  | e :: _ => findOrCreate fault users e profile.id

/-! ## Route handlers -/

/-- The body sent by every `catch` block of `app.js`. -/
def internalError : Response := .json 500 "Internal server error"

/-- Handler of `POST /register`. -/
def postRegister (kdf : String → String → String) (st : AppState) (env : Env)
    (email password : Option String) : Response × AppState :=
  if env.faults.findOne then (internalError, st)
  else match email.bind (findByEmail st.users) with
    | some _ => (.json 409 "Email already registered", st)
    | none =>
      match userRegister kdf env.faults.register env.salt st.users email password with
      | .error _ => (internalError, st)
      | .ok (users1, newUser) =>
        let st1 : AppState := { st with users := users1 }
        match sessionUser st1 env.cookie with
        | none => (.redirect "/secrets", st1)
        | some su =>
          if su = "" then (.redirect "/secrets", st1)
          else match (jsGet (.str su) "profile").bind (fun p => jsGet p "id") with
            | .error _ => (internalError, st1)
            | .ok v =>
              match saveUser env.faults.save st1.users { newUser with googleId := jsToPath v } with
              | .error _ => (internalError, st1)
              | .ok users2 => (.redirect "/secrets", { st1 with users := users2 })

/-- Handler of `POST /login`: `passport.authenticate` with the local strategy,
`successRedirect` and `failureRedirect`; an error of the strategy is handed to `next`. -/
def postLogin (kdf : String → String → String) (st : AppState) (env : Env)
    (email password : Option String) : Response × AppState :=
  match localStrategy kdf env.faults.authenticate st.users email password with
  | .error _ => (.unhandled 500, st)
  | .ok (some u) => (.redirect "/secrets", logIn st env.cookie env.newSid u)
  | .ok none => (.redirect "/login", st)

/-- Handler of `GET /secrets`; `user` is `req.user`. -/
def getSecrets (st : AppState) (env : Env) (user : Option User) : Response × AppState :=
  match user with
  | some _ =>
    if env.faults.find then (internalError, st)
    else (.render "secrets" (some st.secrets), st)
  | none => (.redirect "/login", st)

/-- Handler of `POST /submit`. -/
def postSubmit (st : AppState) (env : Env) (secret : Option String) : Response × AppState :=
  match createSecret env.faults.create st.secrets secret with
  | .ok secrets1 => (.redirect "/secrets", { st with secrets := secrets1 })
  | .error _ => (internalError, st)

/-- Handler of `GET /logout`: `req.logout` removes the user from the session and regenerates
it, which destroys the stored session; the callback redirects whether or not it got an error. -/
def getLogout (st : AppState) (env : Env) : Response × AppState :=
  (.redirect "/", { st with sessions := eraseSession st.sessions env.cookie })

/-- Handler of `GET /auth/google/secrets`: `passport.authenticate` with the Google strategy and
`failureRedirect`, then the redirect to the secrets page.  An error of the handshake, and an
error the verify callback passes on (`cb(err, user)`), are handed to `next`. -/
def getAuthGoogleSecrets (st : AppState) (env : Env) (result : OAuthResult) :
    Response × AppState :=
  match result with
  | .denied => (.redirect "/login", st)
  | .handshakeError => (.unhandled 500, st)
  | .granted profile =>
    match googleVerify env.faults.findOrCreate st.users profile with
    | .error _ => (.unhandled 500, st)
    | .ok (users1, u) =>
      (.redirect "/secrets", logIn { st with users := users1 } env.cookie env.newSid u)

/-- One request through the application: the session middleware, then the route. -/
def handle (kdf : String → String → String) (st : AppState) (req : Request) :
    Response × AppState :=
  let mw := passportSession st req.env.cookie
  match req.route with
  | .getRoot => (.render "home" none, mw.1)
  | .getLogin => (.render "login" none, mw.1)
  | .getRegister => (.render "register" none, mw.1)
  | .postRegister email password => postRegister kdf mw.1 req.env email password
  | .postLogin email password => postLogin kdf mw.1 req.env email password
  | .getSecrets => getSecrets mw.1 req.env mw.2
  | .getSubmit => (.render "submit" none, mw.1)
  | .postSubmit secret => postSubmit mw.1 req.env secret
  | .getLogout => getLogout mw.1 req.env
  | .getAuthGoogle => (.redirect "https://accounts.google.com/o/oauth2/v2/auth", mw.1)
  | .getAuthGoogleSecrets result => getAuthGoogleSecrets mw.1 req.env result

/-- The state after a sequence of requests. -/
def run (kdf : String → String → String) (st : AppState) : List Request → AppState
  | [] => st
  | req :: rest => run kdf (handle kdf st req).2 rest

/-- A key derivation used to evaluate the handlers on concrete inputs. -/
def sampleKdf (password salt : String) : String := salt ++ ":" ++ password

/-- Uniqueness as the data model states it: no two users share an email, and no two users
that both have a `googleId` share it. -/
def UsersUnique (users : List User) : Prop :=
  users.Pairwise (fun u v =>
    u.email ≠ v.email ∧ ∀ g, u.googleId = some g → v.googleId ≠ some g)

/-! ## Sample inputs -/

/-- An environment without cookie and without faults. -/
def plainEnv : Env := ⟨none, "sid-1", "salt-1", noFaults⟩

/-- A logged-in Google account: the user created by the OAuth callback and its session. -/
def googleLoggedIn : AppState :=
  ⟨[⟨"a@b.com", some "g123", none, none⟩], [⟨"first"⟩], [("sid-0", ⟨some "a@b.com"⟩)]⟩

/-- A store holding one local account for `a@b.com`. -/
def oneLocalUser : AppState :=
  ⟨[⟨"a@b.com", none, some "salt-0", some (sampleKdf "pw" "salt-0")⟩], [], []⟩

/-! ## Basic facts about the store and the session middleware -/

theorem passportSession_users (st : AppState) (cookie : Option Token) :
    (passportSession st cookie).1.users = st.users := by
  unfold passportSession
  split
  · rfl
  · split
    · rfl
    · split
      · rfl
      · split
        · rfl
        · split <;> rfl

theorem passportSession_secrets (st : AppState) (cookie : Option Token) :
    (passportSession st cookie).1.secrets = st.secrets := by
  unfold passportSession
  split
  · rfl
  · split
    · rfl
    · split
      · rfl
      · split
        · rfl
        · split <;> rfl

theorem findByEmail_eq_none {users : List User} {e : String} :
    findByEmail users e = none ↔ ∀ u ∈ users, u.email ≠ e := by
  simp [findByEmail]

theorem findByEmail_email {users : List User} {e : String} {u : User}
    (h : findByEmail users e = some u) : u.email = e := by
  have := List.find?_some h
  simpa using this

theorem findByEmail_mem {users : List User} {e : String} {u : User}
    (h : findByEmail users e = some u) : u ∈ users :=
  List.mem_of_find?_eq_some h

theorem findByEmail_isSome_of_mem {users : List User} {e : String}
    (h : ∃ u ∈ users, u.email = e) : ∃ v, findByEmail users e = some v := by
  cases hf : findByEmail users e with
  | some v => exact ⟨v, rfl⟩
  | none =>
    obtain ⟨u, hu, he⟩ := h
    exact absurd he (findByEmail_eq_none.mp hf u hu)

/-- The registration handler on an email that is already stored: the outcome is decided by
the lookup alone. -/
theorem postRegister_existing (kdf : String → String → String) (st : AppState) (env : Env)
    (e : String) (password : Option String) (h : ∃ u ∈ st.users, u.email = e) :
    postRegister kdf st env (some e) password =
      (if env.faults.findOne then internalError else .json 409 "Email already registered", st) := by
  obtain ⟨v, hv⟩ := findByEmail_isSome_of_mem h
  unfold postRegister
  by_cases hf : env.faults.findOne = true
  · simp [hf]
  · simp [hf, hv]

/-- Reading `profile.id` off a serialised user, which is a string, throws. -/
theorem jsGet_profile_id (su : String) :
    (jsGet (.str su) "profile").bind (fun p => jsGet p "id") = .error .typeError := by
  simp [jsGet, Except.bind]

/-- What `User.register` has done when it resolves. -/
theorem userRegister_ok {kdf : String → String → String} {fault : Bool} {salt : String}
    {users : List User} {email password : Option String} {users1 : List User} {u : User}
    (h : userRegister kdf fault salt users email password = .ok (users1, u)) :
    ∃ e p, email = some e ∧ password = some p ∧ e ≠ "" ∧ p ≠ "" ∧ fault = false ∧
      findByEmail users e = none ∧ violatesUnique users u = false ∧
      u = ⟨e, none, some salt, some (kdf p salt)⟩ ∧ users1 = users ++ [u] := by
  unfold userRegister at h
  cases fault with
  | true => simp at h
  | false =>
    cases email with
    | none => simp at h
    | some e =>
      cases password with
      | none =>
        by_cases he : e = ""
        · simp [he] at h
        · cases hf : findByEmail users e <;> simp [he, hf] at h
      | some p =>
        by_cases he : e = ""
        · simp [he] at h
        · cases hf : findByEmail users e with
          | some v => simp [he, hf] at h
          | none =>
            by_cases hp : p = ""
            · simp [he, hf, hp] at h
            · simp only [he, hf, hp, if_false, Bool.false_eq_true] at h
              unfold insertUser at h
              by_cases hv : violatesUnique users ⟨e, none, some salt, some (kdf p salt)⟩ = true
              · simp [he, hv] at h
              · simp [he, hv] at h
                obtain ⟨h1, h2⟩ := h
                subst h2
                exact ⟨e, p, rfl, rfl, he, hp, rfl, hf, by simpa using hv, rfl, h1.symm⟩

/-- A successful registration appends exactly the new local account. -/
theorem postRegister_success (kdf : String → String → String) (st : AppState) (env : Env)
    (email password : Option String) (st1 : AppState)
    (h : postRegister kdf st env email password = (.redirect "/secrets", st1)) :
    ∃ e p, email = some e ∧ password = some p ∧ e ≠ "" ∧ p ≠ "" ∧
      (∀ u ∈ st.users, u.email ≠ e) ∧
      st1 = { st with users := st.users ++ [⟨e, none, some env.salt, some (kdf p env.salt)⟩] } := by
  unfold postRegister at h
  split at h
  · simp [internalError] at h
  · split at h
    · simp at h
    · split at h
      · simp [internalError] at h
      · rename_i users1 newUser hreg
        obtain ⟨e, p, he, hp, hne, hpe, -, hfind, -, hu, hus⟩ := userRegister_ok hreg
        refine ⟨e, p, he, hp, hne, hpe, findByEmail_eq_none.mp hfind, ?_⟩
        subst hu hus
        simp only [jsGet_profile_id] at h
        split at h
        · simpa using h.symm
        · split at h
          · simpa using h.symm
          · simp [internalError] at h

/-! ## Registration of an email that is already taken -/

/-- C1 (counterexample): the store holds an account for `a@b.com` and the lookup
`User.findOne` of the registration handler rejects; the handler answers 500 with the generic
message, not 409. -/
theorem register_existing_email_lookup_fault :
    (∃ u ∈ oneLocalUser.users, u.email = "a@b.com") ∧
    (handle sampleKdf oneLocalUser
      ⟨{ plainEnv with faults := { noFaults with findOne := true } },
        .postRegister (some "a@b.com") (some "pw")⟩).1 = .json 500 "Internal server error" ∧
    (handle sampleKdf oneLocalUser
      ⟨{ plainEnv with faults := { noFaults with findOne := true } },
        .postRegister (some "a@b.com") (some "pw")⟩).1 ≠ .json 409 "Email already registered" := by
  decide

/-- C1 (amended): when the store already holds a user with email `e`, `POST /register` with
that email and any password answers 409 provided the lookup of the email succeeds, answers 500
with the generic message when that lookup fails, and in both cases leaves the User Store
unchanged, so a store with exactly one record for `e` still has exactly one.  In particular,
after a registration of `e` that succeeded, a second registration of `e` whose lookup succeeds
answers 409 and the store holds one record for `e`. -/
theorem register_existing_email (kdf : String → String → String) (st : AppState) (env : Env)
    (e p : String) (h : ∃ u ∈ st.users, u.email = e) :
    (env.faults.findOne = false →
      (handle kdf st ⟨env, .postRegister (some e) (some p)⟩).1 =
        .json 409 "Email already registered") ∧
    (env.faults.findOne = true →
      (handle kdf st ⟨env, .postRegister (some e) (some p)⟩).1 =
        .json 500 "Internal server error") ∧
    (handle kdf st ⟨env, .postRegister (some e) (some p)⟩).2.users = st.users ∧
    ((st.users.filter (fun u => decide (u.email = e))).length = 1 →
      ((handle kdf st ⟨env, .postRegister (some e) (some p)⟩).2.users.filter
        (fun u => decide (u.email = e))).length = 1) ∧
    (∀ (st0 : AppState) (env0 env1 : Env) (p0 : String),
      (handle kdf st0 ⟨env0, .postRegister (some e) (some p0)⟩).1 = .redirect "/secrets" →
      env1.faults.findOne = false →
      (handle kdf (handle kdf st0 ⟨env0, .postRegister (some e) (some p0)⟩).2
          ⟨env1, .postRegister (some e) (some p)⟩).1 = .json 409 "Email already registered" ∧
      ((handle kdf (handle kdf st0 ⟨env0, .postRegister (some e) (some p0)⟩).2
          ⟨env1, .postRegister (some e) (some p)⟩).2.users.filter
        (fun u => decide (u.email = e))).length = 1) := by
  have key : ∀ (s : AppState) (en : Env), (∃ u ∈ s.users, u.email = e) →
      handle kdf s ⟨en, .postRegister (some e) (some p)⟩ =
        (if en.faults.findOne then internalError else .json 409 "Email already registered",
          (passportSession s en.cookie).1) := by
    intro s en hs
    simp only [handle]
    exact postRegister_existing kdf _ en e (some p) (by rwa [passportSession_users])
  refine ⟨?_, ?_, ?_, ?_, ?_⟩
  · intro hf
    simp [key st env h, hf]
  · intro hf
    simp [key st env h, hf, internalError]
  · simp [key st env h, passportSession_users]
  · intro hc
    simpa [key st env h, passportSession_users] using hc
  · intro st0 env0 env1 p0 hreg hf
    have hsplit : handle kdf st0 ⟨env0, .postRegister (some e) (some p0)⟩ =
        (.redirect "/secrets", (handle kdf st0 ⟨env0, .postRegister (some e) (some p0)⟩).2) :=
      Prod.ext hreg rfl
    have hs := hsplit
    simp only [handle] at hs
    obtain ⟨e1, p1, he1, -, -, -, hnew, hst⟩ := postRegister_success kdf _ env0 _ _ _ hs
    simp only [Option.some.injEq] at he1
    subst he1
    rw [passportSession_users] at hnew
    have husers : (handle kdf st0 ⟨env0, .postRegister (some e) (some p0)⟩).2.users =
        st0.users ++ [⟨e, none, some env0.salt, some (kdf p1 env0.salt)⟩] := by
      simp only [handle]
      rw [hst]
      simp [passportSession_users]
    have hmem : ∃ u ∈ (handle kdf st0 ⟨env0, .postRegister (some e) (some p0)⟩).2.users,
        u.email = e := by
      rw [husers]
      exact ⟨⟨e, none, some env0.salt, some (kdf p1 env0.salt)⟩, by simp, rfl⟩
    have hcount : ((st0.users ++ [(⟨e, none, some env0.salt, some (kdf p1 env0.salt)⟩ : User)]).filter
        (fun u => decide (u.email = e))).length = 1 := by
      have : st0.users.filter (fun u => decide (u.email = e)) = [] := by
        simp only [List.filter_eq_nil_iff, decide_eq_true_eq]
        exact hnew
      simp [List.filter_append, this]
    refine ⟨?_, ?_⟩
    · simp [key _ env1 hmem, hf]
    · simp only [key _ env1 hmem, passportSession_users, husers]
      exact hcount

/-- C1 (witness): the amended statement at the store holding `a@b.com`. -/
theorem register_existing_email_witness :
    (∃ u ∈ oneLocalUser.users, u.email = "a@b.com") ∧
    (handle sampleKdf oneLocalUser ⟨plainEnv, .postRegister (some "a@b.com") (some "other")⟩).1 =
      .json 409 "Email already registered" :=
  ⟨by decide,
    (register_existing_email sampleKdf oneLocalUser plainEnv "a@b.com" "other" (by decide)).1
      (by decide)⟩

/-! ## Sessions: lookup, logout, unauthenticated requests -/

theorem lookup_eraseSession (sessions : List (Token × Session)) (k : Token) :
    (eraseSession sessions (some k)).lookup k = none := by
  unfold eraseSession
  induction sessions with
  | nil => rfl
  | cons p rest ih =>
    by_cases hp : p.1 = k
    · simpa [List.filter_cons, hp] using ih
    · have hk : (k == p.1) = false := by
        simpa using fun h => hp h.symm
      simp only [List.filter_cons, hp, decide_False, Bool.not_false, if_true]
      obtain ⟨a, b⟩ := p
      simp only [List.lookup_cons, hk]
      exact ih

theorem eraseSession_idem (sessions : List (Token × Session)) (cookie : Option Token) :
    eraseSession (eraseSession sessions cookie) cookie = eraseSession sessions cookie := by
  cases cookie with
  | none => rfl
  | some k => simp [eraseSession, List.filter_filter]

theorem passportSession_result_secrets (st : AppState) (secrets : List Secret)
    (cookie : Option Token) :
    (passportSession { st with secrets := secrets } cookie).2 = (passportSession st cookie).2 := by
  unfold passportSession
  split
  · rfl
  · dsimp only
    split
    · rfl
    · split
      · rfl
      · split
        · rfl
        · split <;> rfl

theorem passportSession_of_lookup_none (st : AppState) (k : Token)
    (h : st.sessions.lookup k = none) : passportSession st (some k) = (st, none) := by
  simp [passportSession, h]

theorem handle_getSecrets_of_no_user (kdf : String → String → String) (st : AppState)
    (env : Env) (h : (passportSession st env.cookie).2 = none) :
    handle kdf st ⟨env, .getSecrets⟩ = (.redirect "/login", (passportSession st env.cookie).1) := by
  simp [handle, getSecrets, h]

theorem handle_getSecrets_of_user (kdf : String → String → String) (st : AppState)
    (env : Env) (u : User) (h : (passportSession st env.cookie).2 = some u) :
    handle kdf st ⟨env, .getSecrets⟩ =
      (if env.faults.find then internalError else .render "secrets" (some st.secrets),
        (passportSession st env.cookie).1) := by
  by_cases hf : env.faults.find = true
  · simp [handle, getSecrets, h, hf]
  · simp [handle, getSecrets, h, hf, passportSession_secrets]

/-- C2: a `GET /secrets` request that is not authenticated (it carries no session cookie, or
its cookie resolves to no user) is answered by a redirect to `/login`; the answer is the same
whatever the Secret Store holds and whether or not a read of it would fail, so the store is
neither read nor rendered, and it is left as it was. -/
theorem secrets_unauthenticated_redirect (kdf : String → String → String) (st : AppState)
    (env : Env) (h : env.cookie = none ∨ (passportSession st env.cookie).2 = none) :
    (handle kdf st ⟨env, .getSecrets⟩).1 = .redirect "/login" ∧
    (handle kdf st ⟨env, .getSecrets⟩).2.secrets = st.secrets ∧
    ∀ (secrets : List Secret) (faults : Faults),
      (handle kdf { st with secrets := secrets }
        ⟨{ env with faults := faults }, .getSecrets⟩).1 = .redirect "/login" := by
  have hnone : (passportSession st env.cookie).2 = none := by
    rcases h with h | h
    · rw [h]; rfl
    · exact h
  refine ⟨?_, ?_, ?_⟩
  · rw [handle_getSecrets_of_no_user kdf st env hnone]
  · rw [handle_getSecrets_of_no_user kdf st env hnone]
    exact passportSession_secrets st env.cookie
  · intro secrets faults
    rw [handle_getSecrets_of_no_user kdf _ _
      (by rw [passportSession_result_secrets]; exact hnone)]

/-- C2 (witness): without cookie, and with a cookie unknown to the session store, on a
non-empty Secret Store. -/
theorem secrets_unauthenticated_redirect_witness :
    (handle sampleKdf googleLoggedIn ⟨plainEnv, .getSecrets⟩).1 = .redirect "/login" ∧
    (handle sampleKdf googleLoggedIn ⟨{ plainEnv with cookie := some "stale" }, .getSecrets⟩).1 =
      .redirect "/login" :=
  ⟨(secrets_unauthenticated_redirect sampleKdf googleLoggedIn plainEnv (Or.inl rfl)).1,
    (secrets_unauthenticated_redirect sampleKdf googleLoggedIn
      { plainEnv with cookie := some "stale" } (Or.inr (by decide))).1⟩

/-- C5: after `GET /logout` carrying a token `k` that resolves to a user, the answer is a
redirect to `/`, the session store has no entry for `k`, `k` resolves to no user and a following
`GET /secrets` carrying `k` is redirected to `/login`; a second `GET /logout` carrying `k`, and a
`GET /logout` without session cookie, are answered by the same redirect and change nothing.
(Before the logout, `GET /secrets` carrying `k` was not redirected to `/login`.) -/
theorem logout_destroys_session (kdf : String → String → String) (st : AppState) (env : Env)
    (k : Token) (u : User) (hk : env.cookie = some k)
    (hu : (passportSession st (some k)).2 = some u) :
    (handle kdf st ⟨env, .getSecrets⟩).1 ≠ .redirect "/login" ∧
    (handle kdf st ⟨env, .getLogout⟩).1 = .redirect "/" ∧
    (handle kdf st ⟨env, .getLogout⟩).2.sessions.lookup k = none ∧
    (passportSession (handle kdf st ⟨env, .getLogout⟩).2 (some k)).2 = none ∧
    (∀ env2 : Env, env2.cookie = some k →
      (handle kdf (handle kdf st ⟨env, .getLogout⟩).2 ⟨env2, .getSecrets⟩).1 =
        .redirect "/login") ∧
    (∀ env2 : Env, env2.cookie = some k →
      handle kdf (handle kdf st ⟨env, .getLogout⟩).2 ⟨env2, .getLogout⟩ =
        (.redirect "/", (handle kdf st ⟨env, .getLogout⟩).2)) ∧
    (∀ (st0 : AppState) (env0 : Env), env0.cookie = none →
      handle kdf st0 ⟨env0, .getLogout⟩ = (.redirect "/", st0)) := by
  have hlook : (handle kdf st ⟨env, .getLogout⟩).2.sessions.lookup k = none := by
    simp only [handle, getLogout, hk]
    exact lookup_eraseSession _ k
  have hres := passportSession_of_lookup_none _ k hlook
  refine ⟨?_, rfl, hlook, ?_, ?_, ?_, ?_⟩
  · rw [handle_getSecrets_of_user kdf st env u (by rw [hk]; exact hu)]
    by_cases hf : env.faults.find = true <;> simp [hf, internalError]
  · rw [hres]
  · intro env2 h2
    rw [handle_getSecrets_of_no_user kdf _ env2 (by rw [h2, hres])]
  · intro env2 h2
    have herase : eraseSession (handle kdf st ⟨env, .getLogout⟩).2.sessions (some k) =
        (handle kdf st ⟨env, .getLogout⟩).2.sessions := by
      simp only [handle, getLogout, hk, eraseSession_idem]
    generalize (handle kdf st ⟨env, .getLogout⟩).2 = s1 at hres herase ⊢
    simp only [handle, getLogout, h2, hres, herase]
  · intro st0 env0 h0
    simp [handle, getLogout, h0, passportSession, eraseSession]

/-- C5 (witness): the logged-in Google account logs out. -/
theorem logout_destroys_session_witness :
    (passportSession googleLoggedIn (some "sid-0")).2 = some ⟨"a@b.com", some "g123", none, none⟩ ∧
    (handle sampleKdf googleLoggedIn ⟨{ plainEnv with cookie := some "sid-0" }, .getLogout⟩).1 =
      .redirect "/" ∧
    (handle sampleKdf
      (handle sampleKdf googleLoggedIn ⟨{ plainEnv with cookie := some "sid-0" }, .getLogout⟩).2
      ⟨{ plainEnv with cookie := some "sid-0" }, .getSecrets⟩).1 = .redirect "/login" :=
  ⟨by decide,
    (logout_destroys_session sampleKdf googleLoggedIn { plainEnv with cookie := some "sid-0" }
      "sid-0" ⟨"a@b.com", some "g123", none, none⟩ rfl (by decide)).2.1,
    (logout_destroys_session sampleKdf googleLoggedIn { plainEnv with cookie := some "sid-0" }
      "sid-0" ⟨"a@b.com", some "g123", none, none⟩ rfl (by decide)).2.2.2.2.1
      { plainEnv with cookie := some "sid-0" } rfl⟩

/-! ## Submitting a secret and listing it -/

theorem handle_postSubmit (kdf : String → String → String) (st : AppState) (env : Env)
    (secret : Option String) :
    handle kdf st ⟨env, .postSubmit secret⟩ =
      match createSecret env.faults.create st.secrets secret with
      | .ok secrets1 =>
        (.redirect "/secrets", { (passportSession st env.cookie).1 with secrets := secrets1 })
      | .error _ => (internalError, (passportSession st env.cookie).1) := by
  simp only [handle, postSubmit, passportSession_secrets]

/-- C3 (counterexample): the logged-in user submits `hello`, the write succeeds, and the
following `GET /secrets` of the same user meets a failing read of the Secret Store: the answer
is 500 with the generic message instead of a listing. -/
theorem submit_then_listing_read_fault :
    (handle sampleKdf googleLoggedIn
      ⟨{ plainEnv with cookie := some "sid-0" }, .postSubmit (some "hello")⟩) =
      (.redirect "/secrets",
        { googleLoggedIn with secrets := googleLoggedIn.secrets ++ [⟨"hello"⟩] }) ∧
    (passportSession { googleLoggedIn with secrets := googleLoggedIn.secrets ++ [⟨"hello"⟩] }
      (some "sid-0")).2 = some ⟨"a@b.com", some "g123", none, none⟩ ∧
    (handle sampleKdf { googleLoggedIn with secrets := googleLoggedIn.secrets ++ [⟨"hello"⟩] }
      ⟨{ plainEnv with cookie := some "sid-0", faults := { noFaults with find := true } },
        .getSecrets⟩).1 = .json 500 "Internal server error" := by
  decide

/-- C3 (amended): for every non-empty text `t`, an authenticated `POST /submit` of `t` whose
store write succeeds is answered by a redirect to `/secrets` and leaves the Secret Store equal to
the previous one plus exactly one new record with text `t`; a subsequent authenticated
`GET /secrets` whose read of the Secret Store succeeds renders the listing of that store, which
includes the record with text `t`; when that read fails the answer is 500 with the generic
message.  (The submitting request being authenticated, a `GET /secrets` with its cookie is not
redirected to `/login`.) -/
theorem submit_then_listing (kdf : String → String → String) (st : AppState) (env : Env)
    (t : String) (u : User) (ht : t ≠ "")
    (hauth : (passportSession st env.cookie).2 = some u)
    (hwrite : env.faults.create = false) :
    (handle kdf st ⟨env, .getSecrets⟩).1 ≠ .redirect "/login" ∧
    (handle kdf st ⟨env, .postSubmit (some t)⟩).1 = .redirect "/secrets" ∧
    (handle kdf st ⟨env, .postSubmit (some t)⟩).2.secrets = st.secrets ++ [⟨t⟩] ∧
    ∀ (env2 : Env) (u2 : User),
      (passportSession (handle kdf st ⟨env, .postSubmit (some t)⟩).2 env2.cookie).2 = some u2 →
      (env2.faults.find = false →
        (handle kdf (handle kdf st ⟨env, .postSubmit (some t)⟩).2 ⟨env2, .getSecrets⟩).1 =
          .render "secrets" (some (st.secrets ++ [⟨t⟩])) ∧
        (⟨t⟩ : Secret) ∈ st.secrets ++ [⟨t⟩]) ∧
      (env2.faults.find = true →
        (handle kdf (handle kdf st ⟨env, .postSubmit (some t)⟩).2 ⟨env2, .getSecrets⟩).1 =
          .json 500 "Internal server error") := by
  have hsub : handle kdf st ⟨env, .postSubmit (some t)⟩ =
      (.redirect "/secrets",
        { (passportSession st env.cookie).1 with secrets := st.secrets ++ [⟨t⟩] }) := by
    rw [handle_postSubmit]
    simp [createSecret, hwrite, ht]
  refine ⟨?_, ?_, ?_, ?_⟩
  · rw [handle_getSecrets_of_user kdf st env u hauth]
    by_cases hf : env.faults.find = true <;> simp [hf, internalError]
  · rw [hsub]
  · rw [hsub]
  · intro env2 u2 h2
    refine ⟨?_, ?_⟩
    · intro hread
      refine ⟨?_, by simp⟩
      rw [handle_getSecrets_of_user kdf _ env2 u2 h2]
      simp [hread, hsub]
    · intro hread
      generalize (handle kdf st ⟨env, .postSubmit (some t)⟩).2 = s1 at h2
      simp [handle, getSecrets, h2, hread, internalError]

/-- C3 (witness): the logged-in user submits `hello`, then lists the secrets, once with a
read that succeeds and once with a read that fails. -/
theorem submit_then_listing_witness :
    (handle sampleKdf googleLoggedIn
      ⟨{ plainEnv with cookie := some "sid-0" }, .postSubmit (some "hello")⟩).1 =
      .redirect "/secrets" ∧
    (handle sampleKdf
      (handle sampleKdf googleLoggedIn
        ⟨{ plainEnv with cookie := some "sid-0" }, .postSubmit (some "hello")⟩).2
      ⟨{ plainEnv with cookie := some "sid-0" }, .getSecrets⟩).1 =
      .render "secrets" (some [⟨"first"⟩, ⟨"hello"⟩]) ∧
    (handle sampleKdf
      (handle sampleKdf googleLoggedIn
        ⟨{ plainEnv with cookie := some "sid-0" }, .postSubmit (some "hello")⟩).2
      ⟨{ plainEnv with cookie := some "sid-0", faults := { noFaults with find := true } },
        .getSecrets⟩).1 = .json 500 "Internal server error" :=
  ⟨(submit_then_listing sampleKdf googleLoggedIn { plainEnv with cookie := some "sid-0" } "hello"
      ⟨"a@b.com", some "g123", none, none⟩ (by decide) (by decide) rfl).2.1,
    (((submit_then_listing sampleKdf googleLoggedIn { plainEnv with cookie := some "sid-0" }
      "hello" ⟨"a@b.com", some "g123", none, none⟩ (by decide) (by decide) rfl).2.2.2
      { plainEnv with cookie := some "sid-0" } ⟨"a@b.com", some "g123", none, none⟩
      (by decide)).1 rfl).1,
    ((submit_then_listing sampleKdf googleLoggedIn { plainEnv with cookie := some "sid-0" }
      "hello" ⟨"a@b.com", some "g123", none, none⟩ (by decide) (by decide) rfl).2.2.2
      { plainEnv with cookie := some "sid-0", faults := { noFaults with find := true } }
      ⟨"a@b.com", some "g123", none, none⟩ (by decide)).2 rfl⟩

/-! ## Logging in -/

theorem findByEmail_append_new {users : List User} {e : String} (u : User)
    (hnew : ∀ v ∈ users, v.email ≠ e) (hu : u.email = e) :
    findByEmail (users ++ [u]) e = some u := by
  have hnone : List.find? (fun v => decide (v.email = e)) users = none := by
    simpa using hnew
  simp [findByEmail, List.find?_append, hnone, hu]

/-- After `req.logIn`, the new session identifier resolves to the stored user. -/
theorem passportSession_logIn (st : AppState) (cookie : Option Token) (newSid : Token)
    (u v : User) (hne : u.email ≠ "") (hfind : findByEmail st.users u.email = some v) :
    passportSession (logIn st cookie newSid u) (some newSid) =
      (logIn st cookie newSid u, some v) := by
  simp [passportSession, logIn, List.lookup, hne, hfind]

/-- The login handler in terms of the outcome of the local strategy. -/
theorem handle_postLogin (kdf : String → String → String) (st : AppState) (env : Env)
    (email password : Option String) :
    handle kdf st ⟨env, .postLogin email password⟩ =
      match localStrategy kdf env.faults.authenticate st.users email password with
      | .error _ => (.unhandled 500, (passportSession st env.cookie).1)
      | .ok (some u) =>
        (.redirect "/secrets",
          logIn (passportSession st env.cookie).1 env.cookie env.newSid u)
      | .ok none => (.redirect "/login", (passportSession st env.cookie).1) := by
  simp only [handle, postLogin, passportSession_users]

/-- C4 (counterexample): `a@b.com` registers on the empty store.  A login with the same
password whose user lookup fails is answered 500 by the default error handler, not by the
redirect.  A login whose lookup succeeds is redirected to `/secrets`, and the `GET /secrets`
carrying its session that meets a failing read of the Secret Store is answered by 500 with the
generic message, not by the listing. -/
theorem register_then_login_read_fault :
    (handle sampleKdf AppState.empty
      ⟨plainEnv, .postRegister (some "a@b.com") (some "pw")⟩).1 = .redirect "/secrets" ∧
    (handle sampleKdf
      (handle sampleKdf AppState.empty
        ⟨plainEnv, .postRegister (some "a@b.com") (some "pw")⟩).2
      ⟨{ plainEnv with newSid := "sid-2", faults := { noFaults with authenticate := true } },
        .postLogin (some "a@b.com") (some "pw")⟩).1 = .unhandled 500 ∧
    (handle sampleKdf
      (handle sampleKdf AppState.empty
        ⟨plainEnv, .postRegister (some "a@b.com") (some "pw")⟩).2
      ⟨{ plainEnv with newSid := "sid-2" }, .postLogin (some "a@b.com") (some "pw")⟩).1 =
      .redirect "/secrets" ∧
    (handle sampleKdf
      (handle sampleKdf
        (handle sampleKdf AppState.empty
          ⟨plainEnv, .postRegister (some "a@b.com") (some "pw")⟩).2
        ⟨{ plainEnv with newSid := "sid-2" }, .postLogin (some "a@b.com") (some "pw")⟩).2
      ⟨{ plainEnv with cookie := some "sid-2", faults := { noFaults with find := true } },
        .getSecrets⟩).1 = .json 500 "Internal server error" := by
  decide

/-- C4 (amended): for every email `e` not in the User Store and every password `p`, when
`POST /register` with `e` and `p` succeeds (it is answered by the redirect to `/secrets`), a
following `POST /login` with the same `e` and `p` whose user lookup succeeds makes the login
succeed: it is answered by the redirect to `/secrets` and its new session resolves to the user
with email `e`; a `GET /secrets` carrying that session is never redirected to `/login`, it
renders the secrets listing when its read of the Secret Store succeeds and is answered 500 with
the generic message when that read fails.  When the user lookup of the login fails, the login
is answered 500 by the default error handler and no session is established.  (A login with a
password whose derived key differs is redirected to `/login`.) -/
theorem register_then_login (kdf : String → String → String) (st : AppState) (env1 env2 : Env)
    (e p : String) (hnew : ∀ u ∈ st.users, u.email ≠ e)
    (hreg : (handle kdf st ⟨env1, .postRegister (some e) (some p)⟩).1 = .redirect "/secrets") :
    (env2.faults.authenticate = true →
      handle kdf (handle kdf st ⟨env1, .postRegister (some e) (some p)⟩).2
          ⟨env2, .postLogin (some e) (some p)⟩ =
        (.unhandled 500,
          (passportSession (handle kdf st ⟨env1, .postRegister (some e) (some p)⟩).2
            env2.cookie).1)) ∧
    (env2.faults.authenticate = false →
      (handle kdf (handle kdf st ⟨env1, .postRegister (some e) (some p)⟩).2
        ⟨env2, .postLogin (some e) (some p)⟩).1 = .redirect "/secrets" ∧
      (∃ u, u.email = e ∧
        (passportSession
          (handle kdf (handle kdf st ⟨env1, .postRegister (some e) (some p)⟩).2
            ⟨env2, .postLogin (some e) (some p)⟩).2 (some env2.newSid)).2 = some u) ∧
      ∀ env3 : Env, env3.cookie = some env2.newSid →
        (handle kdf
          (handle kdf (handle kdf st ⟨env1, .postRegister (some e) (some p)⟩).2
            ⟨env2, .postLogin (some e) (some p)⟩).2 ⟨env3, .getSecrets⟩).1 ≠
          .redirect "/login" ∧
        (env3.faults.find = false →
          (handle kdf
            (handle kdf (handle kdf st ⟨env1, .postRegister (some e) (some p)⟩).2
              ⟨env2, .postLogin (some e) (some p)⟩).2 ⟨env3, .getSecrets⟩).1 =
            .render "secrets" (some st.secrets)) ∧
        (env3.faults.find = true →
          (handle kdf
            (handle kdf (handle kdf st ⟨env1, .postRegister (some e) (some p)⟩).2
              ⟨env2, .postLogin (some e) (some p)⟩).2 ⟨env3, .getSecrets⟩).1 =
            .json 500 "Internal server error")) ∧
    (∀ p2 : String, kdf p2 env1.salt ≠ kdf p env1.salt → env2.faults.authenticate = false →
      handle kdf (handle kdf st ⟨env1, .postRegister (some e) (some p)⟩).2
          ⟨env2, .postLogin (some e) (some p2)⟩ =
        (.redirect "/login",
          (passportSession (handle kdf st ⟨env1, .postRegister (some e) (some p)⟩).2
            env2.cookie).1)) := by
  have hs : handle kdf st ⟨env1, .postRegister (some e) (some p)⟩ =
      (.redirect "/secrets", (handle kdf st ⟨env1, .postRegister (some e) (some p)⟩).2) :=
    Prod.ext hreg rfl
  have hs1 := hs
  simp only [handle] at hs1
  obtain ⟨e1, p1, he1, hp1, hne, hpe, -, hst⟩ := postRegister_success kdf _ env1 _ _ _ hs1
  simp only [Option.some.injEq] at he1 hp1
  subst he1 hp1
  have hhandle : (handle kdf st ⟨env1, .postRegister (some e) (some p)⟩).2 =
      { (passportSession st env1.cookie).1 with
        users := st.users ++ [⟨e, none, some env1.salt, some (kdf p env1.salt)⟩] } := by
    simp only [handle]
    rw [hst, passportSession_users]
  rw [hhandle]
  generalize hs1def : ({ (passportSession st env1.cookie).1 with
        users := st.users ++ [⟨e, none, some env1.salt, some (kdf p env1.salt)⟩] } : AppState)
    = s1
  have hu1 : s1.users = st.users ++ [⟨e, none, some env1.salt, some (kdf p env1.salt)⟩] := by
    rw [← hs1def]
  have hsec1 : s1.secrets = st.secrets := by
    rw [← hs1def]
    exact passportSession_secrets st env1.cookie
  have hfind0 : findByEmail s1.users e =
      some ⟨e, none, some env1.salt, some (kdf p env1.salt)⟩ := by
    rw [hu1]
    exact findByEmail_append_new _ hnew rfl
  have hfind : ∀ c : Option Token, findByEmail (passportSession s1 c).1.users e =
      some ⟨e, none, some env1.salt, some (kdf p env1.salt)⟩ := by
    intro c
    rw [passportSession_users]
    exact hfind0
  refine ⟨?_, ?_, ?_⟩
  · intro hf
    simp [handle, postLogin, localStrategy, hne, hpe, hf]
  · intro hf
    have hlogin : handle kdf s1 ⟨env2, .postLogin (some e) (some p)⟩ =
        (.redirect "/secrets",
          logIn (passportSession s1 env2.cookie).1 env2.cookie env2.newSid
            ⟨e, none, some env1.salt, some (kdf p env1.salt)⟩) := by
      rw [handle_postLogin]
      simp [localStrategy, verifyLocal, hne, hpe, hf, hfind0]
    have hres := passportSession_logIn (passportSession s1 env2.cookie).1 env2.cookie
      env2.newSid ⟨e, none, some env1.salt, some (kdf p env1.salt)⟩ _ hne (hfind env2.cookie)
    rw [hlogin]
    refine ⟨rfl, ⟨_, rfl, by rw [hres]⟩, ?_⟩
    intro env3 h3
    have hauth : (passportSession (logIn (passportSession s1 env2.cookie).1 env2.cookie
        env2.newSid ⟨e, none, some env1.salt, some (kdf p env1.salt)⟩) env3.cookie).2 =
        some ⟨e, none, some env1.salt, some (kdf p env1.salt)⟩ := by
      rw [h3, hres]
    refine ⟨?_, ?_, ?_⟩
    · rw [handle_getSecrets_of_user kdf _ env3 _ hauth]
      by_cases hf3 : env3.faults.find = true <;> simp [hf3, internalError]
    · intro hf3
      rw [handle_getSecrets_of_user kdf _ env3 _ hauth]
      simp [hf3, logIn, passportSession_secrets, hsec1]
    · intro hf3
      simp [handle, getSecrets, hauth, hf3, internalError]
  · intro p2 hp2 hf
    rw [handle_postLogin]
    by_cases hp2e : p2 = ""
    · simp [localStrategy, hp2e]
    · simp [localStrategy, verifyLocal, hne, hp2e, hf, hfind0, hp2]

/-- C4 (witness): `a@b.com` registers on the empty store, logs in and reads the listing; the
same with a failing read, and a login whose lookup fails. -/
theorem register_then_login_witness :
    (handle sampleKdf AppState.empty
      ⟨plainEnv, .postRegister (some "a@b.com") (some "pw")⟩).1 = .redirect "/secrets" ∧
    (handle sampleKdf
      (handle sampleKdf AppState.empty
        ⟨plainEnv, .postRegister (some "a@b.com") (some "pw")⟩).2
      ⟨{ plainEnv with newSid := "sid-2" }, .postLogin (some "a@b.com") (some "pw")⟩).1 =
      .redirect "/secrets" ∧
    (handle sampleKdf
      (handle sampleKdf
        (handle sampleKdf AppState.empty
          ⟨plainEnv, .postRegister (some "a@b.com") (some "pw")⟩).2
        ⟨{ plainEnv with newSid := "sid-2" }, .postLogin (some "a@b.com") (some "pw")⟩).2
      ⟨{ plainEnv with cookie := some "sid-2" }, .getSecrets⟩).1 =
      .render "secrets" (some []) ∧
    (handle sampleKdf
      (handle sampleKdf
        (handle sampleKdf AppState.empty
          ⟨plainEnv, .postRegister (some "a@b.com") (some "pw")⟩).2
        ⟨{ plainEnv with newSid := "sid-2" }, .postLogin (some "a@b.com") (some "pw")⟩).2
      ⟨{ plainEnv with cookie := some "sid-2", faults := { noFaults with find := true } },
        .getSecrets⟩).1 = .json 500 "Internal server error" ∧
    (handle sampleKdf
      (handle sampleKdf AppState.empty
        ⟨plainEnv, .postRegister (some "a@b.com") (some "pw")⟩).2
      ⟨{ plainEnv with faults := { noFaults with authenticate := true } },
        .postLogin (some "a@b.com") (some "pw")⟩).1 = .unhandled 500 :=
  ⟨by decide,
    ((register_then_login sampleKdf AppState.empty plainEnv { plainEnv with newSid := "sid-2" }
      "a@b.com" "pw" (by decide) (by decide)).2.1 rfl).1,
    ((((register_then_login sampleKdf AppState.empty plainEnv { plainEnv with newSid := "sid-2" }
      "a@b.com" "pw" (by decide) (by decide)).2.1 rfl).2.2
      { plainEnv with cookie := some "sid-2" } rfl).2.1 rfl),
    ((((register_then_login sampleKdf AppState.empty plainEnv { plainEnv with newSid := "sid-2" }
      "a@b.com" "pw" (by decide) (by decide)).2.1 rfl).2.2
      { plainEnv with cookie := some "sid-2", faults := { noFaults with find := true } }
      rfl).2.2 rfl),
    congrArg Prod.fst
      ((register_then_login sampleKdf AppState.empty plainEnv
        { plainEnv with faults := { noFaults with authenticate := true } }
        "a@b.com" "pw" (by decide) (by decide)).1 rfl)⟩

/-! ## The OAuth callback -/

theorem findOrCreate_nil (fault : Bool) (e g : String) :
    findOrCreate fault [] e g =
      if fault then .error .unavailable
      else if e = "" then .error .validation
      else .ok ([⟨e, some g, none, none⟩], ⟨e, some g, none, none⟩) := by
  cases fault <;> by_cases he : e = "" <;> simp [findOrCreate, insertUser, violatesUnique, he]

theorem findOrCreate_single (fault : Bool) (e g : String) :
    findOrCreate fault [⟨e, some g, none, none⟩] e g =
      if fault then .error .unavailable
      else .ok ([⟨e, some g, none, none⟩], ⟨e, some g, none, none⟩) := by
  cases fault <;> simp [findOrCreate]

theorem handle_callback (kdf : String → String → String) (st : AppState) (env : Env)
    (profile : Profile) :
    handle kdf st ⟨env, .getAuthGoogleSecrets (.granted profile)⟩ =
      match googleVerify env.faults.findOrCreate st.users profile with
      | .error _ => (.unhandled 500, (passportSession st env.cookie).1)
      | .ok (users1, u) =>
        (.redirect "/secrets",
          logIn { (passportSession st env.cookie).1 with users := users1 }
            env.cookie env.newSid u) := by
  simp only [handle, getAuthGoogleSecrets, passportSession_users]

/-- The callback on a store that is empty, or holds just the user of the profile. -/
theorem handle_callback_known (kdf : String → String → String) (st : AppState) (env : Env)
    (e g : String) (more : List String)
    (h : st.users = [] ∨ st.users = [⟨e, some g, none, none⟩]) (he : e ≠ "")
    (hf : env.faults.findOrCreate = false) :
    handle kdf st ⟨env, .getAuthGoogleSecrets (.granted ⟨g, e :: more⟩)⟩ =
      (.redirect "/secrets",
        logIn { (passportSession st env.cookie).1 with users := [⟨e, some g, none, none⟩] }
          env.cookie env.newSid ⟨e, some g, none, none⟩) := by
  rw [handle_callback]
  rcases h with h | h
  · simp [googleVerify, h, findOrCreate_nil, hf, he]
  · simp [googleVerify, h, findOrCreate_single, hf]

theorem handle_callback_fault (kdf : String → String → String) (st : AppState) (env : Env)
    (profile : Profile) (hf : env.faults.findOrCreate = true) :
    (handle kdf st ⟨env, .getAuthGoogleSecrets (.granted profile)⟩).1 = .unhandled 500 := by
  rw [handle_callback]
  cases hp : profile.emails <;> simp [googleVerify, hp, findOrCreate, hf]

/-- C6: on an empty User Store, the OAuth callback for a profile with email `e` and provider
id `g` succeeds (it is answered by the redirect to `/secrets`) exactly when `e` is non-empty and
the store operation does not fail, and otherwise leaves the store empty.  When it succeeds the
User Store holds exactly one user, with email `e` and googleId `g`, and the new session holds
`e` and resolves to that user.  On the resulting store `User.findOrCreate` with `e` and `g`
finds that user and returns the store as it is; a second callback with the same `e` and `g`
succeeds exactly when its store operation does not fail, in every case leaves the User Store
with that one user, and when it succeeds its new session resolves to the same user. -/
theorem oauth_callback_creates_once (kdf : String → String → String) (st : AppState) (env : Env)
    (e g : String) (more : List String) (hempty : st.users = []) :
    ((handle kdf st ⟨env, .getAuthGoogleSecrets (.granted ⟨g, e :: more⟩)⟩).1 =
        .redirect "/secrets" ↔ (e ≠ "" ∧ env.faults.findOrCreate = false)) ∧
    ((handle kdf st ⟨env, .getAuthGoogleSecrets (.granted ⟨g, e :: more⟩)⟩).1 ≠
        .redirect "/secrets" →
      handle kdf st ⟨env, .getAuthGoogleSecrets (.granted ⟨g, e :: more⟩)⟩ =
        (.unhandled 500, (passportSession st env.cookie).1) ∧
      (handle kdf st ⟨env, .getAuthGoogleSecrets (.granted ⟨g, e :: more⟩)⟩).2.users = []) ∧
    ((handle kdf st ⟨env, .getAuthGoogleSecrets (.granted ⟨g, e :: more⟩)⟩).1 =
        .redirect "/secrets" →
      (handle kdf st ⟨env, .getAuthGoogleSecrets (.granted ⟨g, e :: more⟩)⟩).2.users =
        [⟨e, some g, none, none⟩] ∧
      sessionUser (handle kdf st ⟨env, .getAuthGoogleSecrets (.granted ⟨g, e :: more⟩)⟩).2
        (some env.newSid) = some e ∧
      (passportSession (handle kdf st ⟨env, .getAuthGoogleSecrets (.granted ⟨g, e :: more⟩)⟩).2
        (some env.newSid)).2 = some ⟨e, some g, none, none⟩ ∧
      findOrCreate false
        (handle kdf st ⟨env, .getAuthGoogleSecrets (.granted ⟨g, e :: more⟩)⟩).2.users e g =
        .ok ((handle kdf st ⟨env, .getAuthGoogleSecrets (.granted ⟨g, e :: more⟩)⟩).2.users,
          ⟨e, some g, none, none⟩) ∧
      ∀ (env2 : Env) (more2 : List String),
        ((handle kdf (handle kdf st ⟨env, .getAuthGoogleSecrets (.granted ⟨g, e :: more⟩)⟩).2
          ⟨env2, .getAuthGoogleSecrets (.granted ⟨g, e :: more2⟩)⟩).1 = .redirect "/secrets" ↔
          env2.faults.findOrCreate = false) ∧
        (handle kdf (handle kdf st ⟨env, .getAuthGoogleSecrets (.granted ⟨g, e :: more⟩)⟩).2
          ⟨env2, .getAuthGoogleSecrets (.granted ⟨g, e :: more2⟩)⟩).2.users =
          [⟨e, some g, none, none⟩] ∧
        (env2.faults.findOrCreate = false →
          sessionUser
            (handle kdf (handle kdf st ⟨env, .getAuthGoogleSecrets (.granted ⟨g, e :: more⟩)⟩).2
              ⟨env2, .getAuthGoogleSecrets (.granted ⟨g, e :: more2⟩)⟩).2
            (some env2.newSid) = some e ∧
          (passportSession
            (handle kdf (handle kdf st ⟨env, .getAuthGoogleSecrets (.granted ⟨g, e :: more⟩)⟩).2
              ⟨env2, .getAuthGoogleSecrets (.granted ⟨g, e :: more2⟩)⟩).2
            (some env2.newSid)).2 = some ⟨e, some g, none, none⟩)) := by
  have hiff : (handle kdf st ⟨env, .getAuthGoogleSecrets (.granted ⟨g, e :: more⟩)⟩).1 =
        .redirect "/secrets" ↔ (e ≠ "" ∧ env.faults.findOrCreate = false) := by
    constructor
    · intro hs
      by_cases hf : env.faults.findOrCreate = true
      · rw [handle_callback_fault kdf st env _ hf] at hs
        simp at hs
      · by_cases he : e = ""
        · rw [handle_callback] at hs
          simp [googleVerify, hempty, findOrCreate_nil, hf, he] at hs
        · exact ⟨he, by simpa using hf⟩
    · rintro ⟨he, hf⟩
      rw [handle_callback_known kdf st env e g more (Or.inl hempty) he hf]
  refine ⟨hiff, ?_, ?_⟩
  · intro hns
    have hfail : handle kdf st ⟨env, .getAuthGoogleSecrets (.granted ⟨g, e :: more⟩)⟩ =
        (.unhandled 500, (passportSession st env.cookie).1) := by
      rw [handle_callback]
      by_cases hf : env.faults.findOrCreate = true
      · simp [googleVerify, findOrCreate, hf]
      · by_cases he : e = ""
        · simp [googleVerify, hempty, findOrCreate_nil, hf, he]
        · exact absurd (hiff.mpr ⟨he, by simpa using hf⟩) hns
    refine ⟨hfail, ?_⟩
    rw [hfail]
    simp [passportSession_users, hempty]
  · intro hs
    obtain ⟨he, hf⟩ := hiff.mp hs
    have hfind : findByEmail [(⟨e, some g, none, none⟩ : User)] e =
        some ⟨e, some g, none, none⟩ := by
      simp [findByEmail]
    rw [handle_callback_known kdf st env e g more (Or.inl hempty) he hf]
    refine ⟨rfl, ?_, ?_, ?_, ?_⟩
    · simp [sessionUser, logIn, List.lookup]
    · rw [passportSession_logIn _ _ _ _ ⟨e, some g, none, none⟩ he hfind]
    · simp [logIn, findOrCreate]
    · intro env2 more2
      by_cases hf2 : env2.faults.findOrCreate = true
      · have hfail : handle kdf
            (logIn { (passportSession st env.cookie).1 with users := [⟨e, some g, none, none⟩] }
              env.cookie env.newSid ⟨e, some g, none, none⟩)
            ⟨env2, .getAuthGoogleSecrets (.granted ⟨g, e :: more2⟩)⟩ =
            (.unhandled 500,
              (passportSession
                (logIn { (passportSession st env.cookie).1 with
                    users := [⟨e, some g, none, none⟩] }
                  env.cookie env.newSid ⟨e, some g, none, none⟩) env2.cookie).1) := by
          rw [handle_callback]
          simp [googleVerify, findOrCreate, hf2]
        rw [hfail]
        refine ⟨by simp [hf2], ?_, ?_⟩
        · simp [passportSession_users, logIn]
        · intro h
          rw [hf2] at h
          exact absurd h (by decide)
      · have hf2' : env2.faults.findOrCreate = false := by simpa using hf2
        rw [handle_callback_known kdf _ env2 e g more2 (Or.inr rfl) he hf2']
        refine ⟨by simp [hf2'], rfl, ?_⟩
        intro _
        refine ⟨by simp [sessionUser, logIn, List.lookup], ?_⟩
        rw [passportSession_logIn _ _ _ _ ⟨e, some g, none, none⟩ he hfind]

/-- C6 (witness): the profile `a@b.com`, `g123` on the empty store, twice. -/
theorem oauth_callback_creates_once_witness :
    (handle sampleKdf AppState.empty
      ⟨plainEnv, .getAuthGoogleSecrets (.granted ⟨"g123", ["a@b.com"]⟩)⟩) =
      (.redirect "/secrets",
        ⟨[⟨"a@b.com", some "g123", none, none⟩], [], [("sid-1", ⟨some "a@b.com"⟩)]⟩) ∧
    (handle sampleKdf
      (handle sampleKdf AppState.empty
        ⟨plainEnv, .getAuthGoogleSecrets (.granted ⟨"g123", ["a@b.com"]⟩)⟩).2
      ⟨{ plainEnv with newSid := "sid-2" },
        .getAuthGoogleSecrets (.granted ⟨"g123", ["a@b.com"]⟩)⟩).1 = .redirect "/secrets" ∧
    (handle sampleKdf
      (handle sampleKdf AppState.empty
        ⟨plainEnv, .getAuthGoogleSecrets (.granted ⟨"g123", ["a@b.com"]⟩)⟩).2
      ⟨{ plainEnv with newSid := "sid-2" },
        .getAuthGoogleSecrets (.granted ⟨"g123", ["a@b.com"]⟩)⟩).2.users =
      [⟨"a@b.com", some "g123", none, none⟩] ∧
    (passportSession
      (handle sampleKdf
        (handle sampleKdf AppState.empty
          ⟨plainEnv, .getAuthGoogleSecrets (.granted ⟨"g123", ["a@b.com"]⟩)⟩).2
        ⟨{ plainEnv with newSid := "sid-2" },
          .getAuthGoogleSecrets (.granted ⟨"g123", ["a@b.com"]⟩)⟩).2
      (some "sid-2")).2 = some ⟨"a@b.com", some "g123", none, none⟩ :=
  ⟨by decide,
    ((((oauth_callback_creates_once sampleKdf AppState.empty plainEnv "a@b.com" "g123" [] rfl).2.2
      (by decide)).2.2.2.2 { plainEnv with newSid := "sid-2" } []).1).mpr rfl,
    (((oauth_callback_creates_once sampleKdf AppState.empty plainEnv "a@b.com" "g123" [] rfl).2.2
      (by decide)).2.2.2.2 { plainEnv with newSid := "sid-2" } []).2.1,
    ((((oauth_callback_creates_once sampleKdf AppState.empty plainEnv "a@b.com" "g123" [] rfl).2.2
      (by decide)).2.2.2.2 { plainEnv with newSid := "sid-2" } []).2.2 rfl).2⟩

/-! ## Registration while logged in, and submission without login -/

/-- C7 (failing input): a user logged in through Google registers the new email `new@x.com`
with a non-empty password and no store operation fails.  `User.register` stores the new local
account, then reading `profile.id` off the serialised session user throws, and the handler
answers 500 with the generic message instead of the redirect to `/secrets`.  The same request
without the session cookie is answered by the redirect. -/
theorem register_logged_in_internal_error :
    (∀ u ∈ googleLoggedIn.users, u.email ≠ "new@x.com") ∧
    plainEnv.faults = noFaults ∧
    handle sampleKdf googleLoggedIn
      ⟨{ plainEnv with cookie := some "sid-0" },
        .postRegister (some "new@x.com") (some "pw")⟩ =
      (.json 500 "Internal server error",
        { googleLoggedIn with users := googleLoggedIn.users ++
            [⟨"new@x.com", none, some "salt-1", some (sampleKdf "pw" "salt-1")⟩] }) ∧
    handle sampleKdf googleLoggedIn ⟨plainEnv, .postRegister (some "new@x.com") (some "pw")⟩ =
      (.redirect "/secrets",
        { googleLoggedIn with users := googleLoggedIn.users ++
            [⟨"new@x.com", none, some "salt-1", some (sampleKdf "pw" "salt-1")⟩] }) := by
  decide

/-- C8 (failing input): a `POST /submit` without any session cookie, on the empty state,
creates a Secret: the handler never looks at the authentication of the request. -/
theorem submit_unauthenticated_creates_secret :
    (passportSession AppState.empty plainEnv.cookie).2 = none ∧
    handle sampleKdf AppState.empty ⟨plainEnv, .getSecrets⟩ =
      (.redirect "/login", AppState.empty) ∧
    handle sampleKdf AppState.empty ⟨plainEnv, .postSubmit (some "x")⟩ =
      (.redirect "/secrets", ⟨[], [⟨"x"⟩], []⟩) := by
  decide

/-! ## Uniqueness of users in the reachable states -/

/-- The invariant the two unique indexes maintain. -/
theorem pairwise_append_of_not_violates {users : List User} {u : User}
    (hinv : users.Pairwise (fun a b => a.email ≠ b.email ∧ a.googleId ≠ b.googleId))
    (hu : violatesUnique users u = false) :
    (users ++ [u]).Pairwise (fun a b => a.email ≠ b.email ∧ a.googleId ≠ b.googleId) := by
  rw [List.pairwise_append]
  refine ⟨hinv, List.pairwise_singleton _ _, ?_⟩
  intro a ha b hb
  simp only [List.mem_singleton] at hb
  subst hb
  simp only [violatesUnique, List.any_eq_false, Bool.or_eq_true, decide_eq_true_eq, not_or] at hu
  exact hu a ha

theorem insertUser_ok {fault : Bool} {users users1 : List User} {u : User}
    (h : insertUser fault users u = .ok users1) :
    violatesUnique users u = false ∧ users1 = users ++ [u] := by
  unfold insertUser at h
  split at h
  · simp at h
  · split at h
    · simp at h
    · split at h
      · simp at h
      · rename_i hv
        simp only [Except.ok.injEq] at h
        exact ⟨by simpa using hv, h.symm⟩

theorem findOrCreate_ok {fault : Bool} {users users1 : List User} {e g : String} {u : User}
    (h : findOrCreate fault users e g = .ok (users1, u)) :
    users1 = users ∨ (violatesUnique users u = false ∧ users1 = users ++ [u]) := by
  unfold findOrCreate at h
  split at h
  · simp at h
  · split at h
    · simp only [Except.ok.injEq, Prod.mk.injEq] at h
      exact Or.inl h.1.symm
    · dsimp only at h
      split at h
      · simp at h
      · rename_i users2 hins
        simp only [Except.ok.injEq, Prod.mk.injEq] at h
        obtain ⟨h1, h2⟩ := h
        subst h1 h2
        exact Or.inr (insertUser_ok hins)

theorem postRegister_users (kdf : String → String → String) (st : AppState) (env : Env)
    (email password : Option String) :
    (postRegister kdf st env email password).2.users = st.users ∨
    ∃ u, violatesUnique st.users u = false ∧
      (postRegister kdf st env email password).2.users = st.users ++ [u] := by
  unfold postRegister
  split
  · exact Or.inl rfl
  · split
    · exact Or.inl rfl
    · split
      · exact Or.inl rfl
      · rename_i users1 newUser hreg
        obtain ⟨e, p, -, -, -, -, -, -, hv, -, hus⟩ := userRegister_ok hreg
        right
        refine ⟨newUser, hv, ?_⟩
        simp only [jsGet_profile_id]
        split
        · exact hus
        · split <;> exact hus

theorem postLogin_users (kdf : String → String → String) (st : AppState) (env : Env)
    (email password : Option String) :
    (postLogin kdf st env email password).2.users = st.users := by
  unfold postLogin
  split <;> rfl

theorem getAuthGoogleSecrets_users (st : AppState) (env : Env) (result : OAuthResult) :
    (getAuthGoogleSecrets st env result).2.users = st.users ∨
    ∃ u, violatesUnique st.users u = false ∧
      (getAuthGoogleSecrets st env result).2.users = st.users ++ [u] := by
  unfold getAuthGoogleSecrets
  split
  · exact Or.inl rfl
  · exact Or.inl rfl
  · split
    · exact Or.inl rfl
    · rename_i profile users1 u hver
      unfold googleVerify at hver
      split at hver
      · simp at hver
      · rcases findOrCreate_ok hver with h | ⟨hv, h⟩
        · exact Or.inl h
        · exact Or.inr ⟨u, hv, h⟩

/-- A request leaves the User Store as it is or appends one user the indexes accept. -/
theorem handle_users (kdf : String → String → String) (st : AppState) (req : Request) :
    (handle kdf st req).2.users = st.users ∨
    ∃ u, violatesUnique st.users u = false ∧ (handle kdf st req).2.users = st.users ++ [u] := by
  obtain ⟨env, route⟩ := req
  have hmw := passportSession_users st env.cookie
  cases route with
  | getRoot => exact Or.inl hmw
  | getLogin => exact Or.inl hmw
  | getRegister => exact Or.inl hmw
  | getSubmit => exact Or.inl hmw
  | getAuthGoogle => exact Or.inl hmw
  | getLogout => exact Or.inl hmw
  | getSecrets =>
    left
    simp only [handle, getSecrets]
    split
    · split <;> exact hmw
    · exact hmw
  | postSubmit secret =>
    left
    simp only [handle, postSubmit]
    split <;> exact hmw
  | postLogin email password =>
    left
    simp only [handle]
    rw [postLogin_users, hmw]
  | postRegister email password =>
    have h := postRegister_users kdf (passportSession st env.cookie).1 env email password
    rw [hmw] at h
    exact h
  | getAuthGoogleSecrets result =>
    have h := getAuthGoogleSecrets_users (passportSession st env.cookie).1 env result
    rw [hmw] at h
    exact h

theorem run_users_pairwise (kdf : String → String → String) (reqs : List Request)
    (st : AppState)
    (hinv : st.users.Pairwise (fun a b => a.email ≠ b.email ∧ a.googleId ≠ b.googleId)) :
    (run kdf st reqs).users.Pairwise
      (fun a b => a.email ≠ b.email ∧ a.googleId ≠ b.googleId) := by
  induction reqs generalizing st with
  | nil => exact hinv
  | cons req rest ih =>
    apply ih
    rcases handle_users kdf st req with h | ⟨u, hv, h⟩
    · rw [h]; exact hinv
    · rw [h]; exact pairwise_append_of_not_violates hinv hv

/-- C9: starting from the empty User Store, after any finite sequence of requests to the
routes of the application, no two users have the same email and no two users that both have a
googleId have the same googleId. -/
theorem users_unique_reachable (kdf : String → String → String) (reqs : List Request) :
    UsersUnique (run kdf AppState.empty reqs).users ∧
    ((run kdf AppState.empty reqs).users.map User.email).Nodup ∧
    ((run kdf AppState.empty reqs).users.filterMap User.googleId).Nodup := by
  have h := run_users_pairwise kdf reqs AppState.empty List.Pairwise.nil
  refine ⟨?_, ?_, ?_⟩
  · exact h.imp (fun hab => ⟨hab.1, fun g hg hb => hab.2 (hg.trans hb.symm)⟩)
  · rw [List.Nodup, List.pairwise_map]
    exact h.imp (fun hab => hab.1)
  · rw [List.Nodup, List.pairwise_filterMap]
    refine h.imp (fun hab => ?_)
    intro x hx y hy hxy
    simp only [Option.mem_def] at hx hy
    exact hab.2 (by rw [hx, hy, hxy])

/-! ## Error policy -/

/-- C10 (counterexample): an OAuth callback whose handshake ends in an error, and one whose
profile is granted while `User.findOrCreate` rejects on a store failure, are both answered with
status 500 by the default error handler, not by a redirect to `/login`. -/
theorem oauth_callback_error_unhandled :
    (handle sampleKdf AppState.empty ⟨plainEnv, .getAuthGoogleSecrets .handshakeError⟩).1 =
      .unhandled 500 ∧
    (handle sampleKdf AppState.empty ⟨plainEnv, .getAuthGoogleSecrets .handshakeError⟩).1 ≠
      .redirect "/login" ∧
    (handle sampleKdf AppState.empty
      ⟨{ plainEnv with faults := { noFaults with findOrCreate := true } },
        .getAuthGoogleSecrets (.granted ⟨"g123", ["a@b.com"]⟩)⟩).1 = .unhandled 500 ∧
    (handle sampleKdf AppState.empty
      ⟨{ plainEnv with faults := { noFaults with findOrCreate := true } },
        .getAuthGoogleSecrets (.granted ⟨"g123", ["a@b.com"]⟩)⟩).1 ≠ .redirect "/login" := by
  decide

/-- C10 (amended): in the three routes whose handler awaits a store operation, a failing
operation is answered by status 500 with the generic body and nothing else: in `POST /register`
when the lookup `User.findOne` fails or when `User.register` fails, in an authenticated
`GET /secrets` when `Secret.find` fails, in `POST /submit` when `Secret.create` fails.  An
authentication failure is answered by a redirect to `/login` and never by a 500: an
unauthenticated `GET /secrets`, a `POST /login` whose credentials do not verify, an OAuth
callback whose handshake is refused.  An error inside authentication is answered with status 500
by the default error handler and not by a redirect to `/login`: a `POST /login` whose user
lookup fails, an OAuth callback whose handshake ends in an error or whose verify callback
passes on an error; a granted callback is redirected to `/secrets` when the verify callback
returns a user, and in no case to `/login`. -/
theorem error_policy (kdf : String → String → String) (st : AppState) (env : Env) :
    (∀ email password : Option String, env.faults.findOne = true →
      (handle kdf st ⟨env, .postRegister email password⟩).1 =
        .json 500 "Internal server error") ∧
    (∀ (email password : Option String) (err : StoreError), env.faults.findOne = false →
      email.bind (findByEmail st.users) = none →
      userRegister kdf env.faults.register env.salt st.users email password = .error err →
      (handle kdf st ⟨env, .postRegister email password⟩).1 =
        .json 500 "Internal server error") ∧
    (∀ u : User, (passportSession st env.cookie).2 = some u → env.faults.find = true →
      (handle kdf st ⟨env, .getSecrets⟩).1 = .json 500 "Internal server error") ∧
    (∀ (secret : Option String) (err : StoreError),
      createSecret env.faults.create st.secrets secret = .error err →
      (handle kdf st ⟨env, .postSubmit secret⟩).1 = .json 500 "Internal server error") ∧
    ((passportSession st env.cookie).2 = none →
      (handle kdf st ⟨env, .getSecrets⟩).1 = .redirect "/login") ∧
    (∀ email password : Option String,
      localStrategy kdf env.faults.authenticate st.users email password = .ok none →
      (handle kdf st ⟨env, .postLogin email password⟩).1 = .redirect "/login") ∧
    (handle kdf st ⟨env, .getAuthGoogleSecrets .denied⟩).1 = .redirect "/login" ∧
    (∀ (email password : Option String) (err : StoreError),
      localStrategy kdf env.faults.authenticate st.users email password = .error err →
      (handle kdf st ⟨env, .postLogin email password⟩).1 = .unhandled 500) ∧
    (handle kdf st ⟨env, .getAuthGoogleSecrets .handshakeError⟩).1 = .unhandled 500 ∧
    (∀ (profile : Profile) (err : StoreError),
      googleVerify env.faults.findOrCreate st.users profile = .error err →
      (handle kdf st ⟨env, .getAuthGoogleSecrets (.granted profile)⟩).1 = .unhandled 500) ∧
    (∀ (profile : Profile) (users1 : List User) (u : User),
      googleVerify env.faults.findOrCreate st.users profile = .ok (users1, u) →
      (handle kdf st ⟨env, .getAuthGoogleSecrets (.granted profile)⟩).1 =
        .redirect "/secrets") ∧
    (∀ profile : Profile,
      (handle kdf st ⟨env, .getAuthGoogleSecrets (.granted profile)⟩).1 ≠
        .redirect "/login") := by
  refine ⟨?_, ?_, ?_, ?_, ?_, ?_, ?_, ?_, ?_, ?_, ?_, ?_⟩
  · intro email password hf
    simp [handle, postRegister, hf, internalError]
  · intro email password err hf hnone hreg
    simp [handle, postRegister, hf, passportSession_users, hnone, hreg, internalError]
  · intro u hu hf
    simp [handle, getSecrets, hu, hf, internalError]
  · intro secret err hc
    simp [handle, postSubmit, passportSession_secrets, hc, internalError]
  · intro hnone
    simp [handle, getSecrets, hnone]
  · intro email password hnone
    simp [handle, postLogin, passportSession_users, hnone]
  · simp [handle, getAuthGoogleSecrets]
  · intro email password err herr
    simp [handle, postLogin, passportSession_users, herr]
  · simp [handle, getAuthGoogleSecrets]
  · intro profile err herr
    simp [handle, getAuthGoogleSecrets, passportSession_users, herr]
  · intro profile users1 u hok
    simp [handle, getAuthGoogleSecrets, passportSession_users, hok]
  · intro profile
    simp only [handle, getAuthGoogleSecrets]
    split <;> simp

/-- C10 (witness): each case of the error policy: registration with a failing lookup and with
a failing `User.register`, listing with a failing read, submission with a failing write,
listing without session, login with a wrong password, login with a failing lookup, a granted
OAuth callback with a failing store and one that succeeds. -/
theorem error_policy_witness :
    (handle sampleKdf googleLoggedIn
      ⟨{ plainEnv with faults := { noFaults with findOne := true } },
        .postRegister (some "new@x.com") (some "pw")⟩).1 = .json 500 "Internal server error" ∧
    (handle sampleKdf googleLoggedIn
      ⟨{ plainEnv with faults := { noFaults with register := true } },
        .postRegister (some "new@x.com") (some "pw")⟩).1 = .json 500 "Internal server error" ∧
    (handle sampleKdf googleLoggedIn
      ⟨{ plainEnv with cookie := some "sid-0", faults := { noFaults with find := true } },
        .getSecrets⟩).1 = .json 500 "Internal server error" ∧
    (handle sampleKdf googleLoggedIn
      ⟨{ plainEnv with faults := { noFaults with create := true } },
        .postSubmit (some "hello")⟩).1 = .json 500 "Internal server error" ∧
    (handle sampleKdf googleLoggedIn ⟨plainEnv, .getSecrets⟩).1 = .redirect "/login" ∧
    (handle sampleKdf oneLocalUser
      ⟨plainEnv, .postLogin (some "a@b.com") (some "wrong")⟩).1 = .redirect "/login" ∧
    (handle sampleKdf oneLocalUser
      ⟨{ plainEnv with faults := { noFaults with authenticate := true } },
        .postLogin (some "a@b.com") (some "pw")⟩).1 = .unhandled 500 ∧
    (handle sampleKdf AppState.empty
      ⟨{ plainEnv with faults := { noFaults with findOrCreate := true } },
        .getAuthGoogleSecrets (.granted ⟨"g123", ["a@b.com"]⟩)⟩).1 = .unhandled 500 ∧
    (handle sampleKdf AppState.empty
      ⟨plainEnv, .getAuthGoogleSecrets (.granted ⟨"g123", ["a@b.com"]⟩)⟩).1 =
      .redirect "/secrets" :=
  ⟨(error_policy sampleKdf googleLoggedIn
      { plainEnv with faults := { noFaults with findOne := true } }).1 _ _ rfl,
    (error_policy sampleKdf googleLoggedIn
      { plainEnv with faults := { noFaults with register := true } }).2.1
      (some "new@x.com") (some "pw") .unavailable rfl (by decide) rfl,
    (error_policy sampleKdf googleLoggedIn
      { plainEnv with cookie := some "sid-0", faults := { noFaults with find := true } }).2.2.1
      ⟨"a@b.com", some "g123", none, none⟩ (by decide) rfl,
    (error_policy sampleKdf googleLoggedIn
      { plainEnv with faults := { noFaults with create := true } }).2.2.2.1
      (some "hello") .unavailable rfl,
    (error_policy sampleKdf googleLoggedIn plainEnv).2.2.2.2.1 (by decide),
    (error_policy sampleKdf oneLocalUser plainEnv).2.2.2.2.2.1
      (some "a@b.com") (some "wrong") rfl,
    (error_policy sampleKdf oneLocalUser
      { plainEnv with faults := { noFaults with authenticate := true } }).2.2.2.2.2.2.2.1
      (some "a@b.com") (some "pw") .unavailable rfl,
    (error_policy sampleKdf AppState.empty
      { plainEnv with faults := { noFaults with findOrCreate := true } }).2.2.2.2.2.2.2.2.2.1
      ⟨"g123", ["a@b.com"]⟩ .unavailable rfl,
    (error_policy sampleKdf AppState.empty plainEnv).2.2.2.2.2.2.2.2.2.2.1
      ⟨"g123", ["a@b.com"]⟩ [⟨"a@b.com", some "g123", none, none⟩]
      ⟨"a@b.com", some "g123", none, none⟩ rfl⟩

end SecretsApp
